import Mathlib

/-!
Verification of the process-supervisor subsystem of the
Jobbot-Application-Database-Bot repository: the two watchdog scripts
`bot_watchdog.py` (class `SlackBotWatchdog`) and `keep_bot_running.py`
(class `BotKeeper`).

Conventions of the shallow embedding:
* wall-clock timestamps are integers counting seconds; `datetime`
  subtraction and `timedelta` comparison translate to integer subtraction
  and comparison (`timedelta(hours=1)` = 3600, `timedelta(minutes=2)` =
  120, `timedelta(seconds=300)` = 300);
* side effects that matter to the claims (sleeps, signals, recording a
  restart, launching) are reified as an ordered trace of `Act`s;
* the outcomes of OS interactions (`start_bot()` success, whether
  `self.bot_process` is set, whether a pid exists) are boolean parameters.
-/

/-- Python `[r for r in history if now - r < timedelta(hours=1)]`, the
pruning comprehension used by both `restart_bot` implementations. -/
def pruneHistory (now : Int) (history : List Int) : List Int :=
  history.filter (fun r => decide (now - r < 3600))

/-- Externally visible actions a `restart_bot` call performs, in order:
the rate-limit cooldown sleep, appending `now` to `restart_history`,
stopping the old worker process, the fixed pre-restart sleep, and the
relaunch via `start_bot()`. -/
inductive Act : Type
  | sleepCooldown (secs : Nat)
  | record (t : Int)
  | terminateOld
  | sleepRestart (secs : Nat)
  | launch
deriving DecidableEq, Repr

/-- Result of one `restart_bot` call: the final `self.restart_history`,
the boolean return value, whether `start_bot()` was reached, the seconds
slept in the rate-limit cooldown branch (0 if that branch was not taken),
and the ordered trace of visible actions. -/
structure RestartOutcome where
  history : List Int
  returned : Bool
  launchAttempted : Bool
  cooldownSecs : Nat
  trace : List Act
deriving DecidableEq, Repr

namespace Watchdog

/-- `self.max_restarts_per_hour = 12` in `SlackBotWatchdog.__init__`. -/
def max_restarts_per_hour : Nat := 12

/-- `self.restart_cooldown = 30` in `SlackBotWatchdog.__init__`. -/
def restart_cooldown : Nat := 30

/-- Shallow embedding of `SlackBotWatchdog.restart_bot` (bot_watchdog.py
lines 155-196).  `now` is `datetime.now()`, `hasProc` is whether
`self.bot_process` is non-None, `startOk` the value `start_bot()` would
return.  The rate-limit branch sleeps 300 s and returns False, leaving
`restart_history` unchanged; otherwise `now` is appended, the history is
pruned to the last hour, the old process is stopped, and the worker is
relaunched after `restart_cooldown` seconds, returning `start_bot()`. -/
def restart_bot (history : List Int) (now : Int) (hasProc startOk : Bool) :
    RestartOutcome :=
  let recent_restarts := pruneHistory now history
  if recent_restarts.length ≥ max_restarts_per_hour then
    { history := history, returned := false, launchAttempted := false,
      cooldownSecs := 300, trace := [Act.sleepCooldown 300] }
  else
    let history1 := history ++ [now]
    let history2 := pruneHistory now history1
    { history := history2, returned := startOk, launchAttempted := true,
      cooldownSecs := 0,
      trace := [Act.record now] ++
        (if hasProc then [Act.terminateOld] else []) ++
        [Act.sleepRestart restart_cooldown, Act.launch] }

/-- The value of `self.restart_history` after a sequence of `restart_bot`
calls, each event giving the call's wall-clock time and the `hasProc` and
`startOk` booleans, starting from the empty history of `__init__`. -/
def historyAfter (events : List (Int × Bool × Bool)) : List Int :=
  events.foldl (fun h e => (restart_bot h e.1 e.2.1 e.2.2).history) []

end Watchdog

namespace Keeper

/-- `self.max_restarts_per_hour = 10` in `BotKeeper.__init__`. -/
def max_restarts_per_hour : Nat := 10

/-- `self.restart_cooldown = 60` in `BotKeeper.__init__`. -/
def restart_cooldown : Nat := 60

/-- Shallow embedding of `BotKeeper.restart_bot` (keep_bot_running.py
lines 180-221): prune the history; if its length reaches the limit, sleep
600 s and reset the history to `[]`; then append `now`, stop the old
process, wait `restart_cooldown` seconds, and return `start_bot()`. -/
def restart_bot (history : List Int) (now : Int) (hasProc startOk : Bool) :
    RestartOutcome :=
  let pruned := pruneHistory now history
  let rateLimited := pruned.length ≥ max_restarts_per_hour
  let cleared := if rateLimited then [] else pruned
  { history := cleared ++ [now], returned := startOk, launchAttempted := true,
    cooldownSecs := if rateLimited then 600 else 0,
    trace := (if rateLimited then [Act.sleepCooldown 600] else []) ++
      [Act.record now] ++
      (if hasProc then [Act.terminateOld] else []) ++
      [Act.sleepRestart restart_cooldown, Act.launch] }

/-- The value of `self.restart_history` after a sequence of `restart_bot`
calls, starting from the empty history of `__init__`. -/
def historyAfter (events : List (Int × Bool × Bool)) : List Int :=
  events.foldl (fun h e => (restart_bot h e.1 e.2.1 e.2.2).history) []

end Keeper

theorem pruneHistory_length_le (now : Int) (h : List Int) :
    (pruneHistory now h).length ≤ h.length :=
  List.length_filter_le _ _

theorem pruneHistory_append (now : Int) (a b : List Int) :
    pruneHistory now (a ++ b) = pruneHistory now a ++ pruneHistory now b := by
  simp [pruneHistory]

theorem pruneHistory_singleton_now (now : Int) :
    pruneHistory now [now] = [now] := by
  simp [pruneHistory]

theorem Watchdog.wd_restart_bot_history_le
    (h : List Int) (now : Int) (a b : Bool)
    (hh : h.length ≤ Watchdog.max_restarts_per_hour) :
    (Watchdog.restart_bot h now a b).history.length ≤
      Watchdog.max_restarts_per_hour := by
  by_cases hc : 12 ≤ (pruneHistory now h).length
  · simpa [Watchdog.restart_bot, Watchdog.max_restarts_per_hour, hc] using hh
  · have hlt : (pruneHistory now h).length < 12 := Nat.lt_of_not_le hc
    have key : (pruneHistory now (h ++ [now])).length ≤ 12 := by
      rw [pruneHistory_append, pruneHistory_singleton_now]
      simp only [List.length_append, List.length_singleton]
      omega
    simpa [Watchdog.restart_bot, hc, Watchdog.max_restarts_per_hour]
      using key

theorem Keeper.kp_restart_bot_history_le
    (h : List Int) (now : Int) (a b : Bool) :
    (Keeper.restart_bot h now a b).history.length ≤
      Keeper.max_restarts_per_hour := by
  by_cases hc : 10 ≤ (pruneHistory now h).length
  · simp [Keeper.restart_bot, hc, Keeper.max_restarts_per_hour]
  · have hlt : (pruneHistory now h).length < 10 := Nat.lt_of_not_le hc
    simp only [Keeper.restart_bot, Keeper.max_restarts_per_hour, ge_iff_le,
      hc, if_false, List.length_append, List.length_singleton]
    omega

theorem Watchdog.wd_historyAfter_le (events : List (Int × Bool × Bool)) :
    (Watchdog.historyAfter events).length ≤ Watchdog.max_restarts_per_hour := by
  suffices H : ∀ (init : List Int),
      init.length ≤ Watchdog.max_restarts_per_hour →
      (events.foldl
        (fun h e => (Watchdog.restart_bot h e.1 e.2.1 e.2.2).history)
        init).length ≤ Watchdog.max_restarts_per_hour by
    exact H [] (by simp)
  induction events with
  | nil => intro init hi; simpa using hi
  | cons e rest ih =>
      intro init hi
      simpa using ih _
        (Watchdog.wd_restart_bot_history_le init e.1 e.2.1 e.2.2 hi)

theorem Keeper.kp_historyAfter_le (events : List (Int × Bool × Bool)) :
    (Keeper.historyAfter events).length ≤ Keeper.max_restarts_per_hour := by
  cases events with
  | nil => simp [Keeper.historyAfter]
  | cons e rest =>
      suffices H : ∀ (init : List Int),
          init.length ≤ Keeper.max_restarts_per_hour →
          (rest.foldl
            (fun h x => (Keeper.restart_bot h x.1 x.2.1 x.2.2).history)
            init).length ≤ Keeper.max_restarts_per_hour by
        simpa [Keeper.historyAfter] using
          H _ (Keeper.kp_restart_bot_history_le [] e.1 e.2.1 e.2.2)
      induction rest with
      | nil => intro init hi; simpa using hi
      | cons x xs ih =>
          intro init hi
          simpa using ih _
            (Keeper.kp_restart_bot_history_le init x.1 x.2.1 x.2.2)

/-- C1: for every sequence of restart events processed by `restart_bot`,
starting from the empty history, the stored `restart_history` never holds
more than `max_restarts_per_hour` timestamps (12 in `bot_watchdog`, 10 in
`keep_bot_running`), and hence the count of recorded restarts inside any
trailing 60-minute window (the prune filter at any time `t`) never exceeds
that bound; in particular the bound can never be exceeded without the
rate-limit cooldown branch being the one taken. -/
theorem restart_history_never_exceeds_hourly_cap
    (events : List (Int × Bool × Bool)) (t : Int) :
    (Watchdog.historyAfter events).length ≤ Watchdog.max_restarts_per_hour ∧
    (pruneHistory t (Watchdog.historyAfter events)).length ≤
      Watchdog.max_restarts_per_hour ∧
    (Keeper.historyAfter events).length ≤ Keeper.max_restarts_per_hour ∧
    (pruneHistory t (Keeper.historyAfter events)).length ≤
      Keeper.max_restarts_per_hour :=
  ⟨Watchdog.wd_historyAfter_le events,
   le_trans (pruneHistory_length_le t _) (Watchdog.wd_historyAfter_le events),
   Keeper.kp_historyAfter_le events,
   le_trans (pruneHistory_length_le t _) (Keeper.kp_historyAfter_le events)⟩

namespace Watchdog

/-- Outcome of one iteration of the `while self.running` body of
`SlackBotWatchdog.run` (bot_watchdog.py lines 243-256), together with the
counter bookkeeping `start_bot` performs on success (line 127). -/
structure IterOutcome where
  consecutive_failures : Nat
  history : List Int
  restartsTriggered : Nat
  backoffSecs : Nat
  cooldownSecs : Nat
  launchAttempted : Bool
deriving DecidableEq, Repr

/-- Shallow embedding of one main-loop iteration of `SlackBotWatchdog.run`:
when `self.consecutive_failures >= 3`, `restart_bot()` is invoked once; if
it returns False the loop sleeps
`min(300, 30 * 2 ** min(self.consecutive_failures - 3, 5))` seconds; a
successful `start_bot` inside the restart resets
`self.consecutive_failures` to 0.  Below the threshold the iteration only
sleeps `check_interval`. -/
def runIter (cf : Nat) (history : List Int) (now : Int)
    (hasProc startOk : Bool) : IterOutcome :=
  if cf ≥ 3 then
    let r := restart_bot history now hasProc startOk
    if r.returned then
      { consecutive_failures := 0, history := r.history,
        restartsTriggered := 1, backoffSecs := 0,
        cooldownSecs := r.cooldownSecs, launchAttempted := r.launchAttempted }
    else
      { consecutive_failures := cf, history := r.history,
        restartsTriggered := 1,
        backoffSecs := min 300 (30 * 2 ^ (min (cf - 3) 5)),
        cooldownSecs := r.cooldownSecs, launchAttempted := r.launchAttempted }
  else
    { consecutive_failures := cf, history := history, restartsTriggered := 0,
      backoffSecs := 0, cooldownSecs := 0, launchAttempted := false }

/-- Shallow embedding of one pass of `SlackBotWatchdog.health_check_loop`
(bot_watchdog.py lines 198-222): a failed process check or a failed
Slack-connection check increments `self.consecutive_failures`; a pass
resets it to 0. -/
def health_check_step (botRunning slackOk : Bool) (cf : Nat) : Nat :=
  if !botRunning then cf + 1
  else if !slackOk then cf + 1
  else 0

end Watchdog

namespace Keeper

/-- Outcome of one iteration of the `while self.running` body of
`BotKeeper.run` (keep_bot_running.py lines 261-290). -/
structure IterOutcome where
  consecutive_failures : Nat
  history : List Int
  restartsTriggered : Nat
  backoffSecs : Nat
  cooldownSecs : Nat
  launchAttempted : Bool
deriving DecidableEq, Repr

/-- Shallow embedding of one iteration of `BotKeeper.run`: `healthy` is
the verdict of `check_bot_health()`.  On a pass the local
`consecutive_failures` resets to 0; on a failure it increments, and once
it reaches 2 `restart_bot()` runs once — a successful restart resets the
counter, a failed one leaves it and sleeps
`min(600, 60 * 2 ** min(consecutive_failures - 2, 4))` seconds. -/
def runIter (healthy : Bool) (cf : Nat) (history : List Int) (now : Int)
    (hasProc startOk : Bool) : IterOutcome :=
  if healthy then
    { consecutive_failures := 0, history := history, restartsTriggered := 0,
      backoffSecs := 0, cooldownSecs := 0, launchAttempted := false }
  else
    let cf1 := cf + 1
    if cf1 ≥ 2 then
      let r := restart_bot history now hasProc startOk
      if r.returned then
        { consecutive_failures := 0, history := r.history,
          restartsTriggered := 1, backoffSecs := 0,
          cooldownSecs := r.cooldownSecs, launchAttempted := r.launchAttempted }
      else
        { consecutive_failures := cf1, history := r.history,
          restartsTriggered := 1,
          backoffSecs := min 600 (60 * 2 ^ (min (cf1 - 2) 4)),
          cooldownSecs := r.cooldownSecs, launchAttempted := r.launchAttempted }
    else
      { consecutive_failures := cf1, history := history,
        restartsTriggered := 0, backoffSecs := 0, cooldownSecs := 0,
        launchAttempted := false }

end Keeper

theorem Watchdog.wd_restart_bot_returned_eq (h : List Int) (now : Int)
    (a b : Bool) :
    (Watchdog.restart_bot h now a b).returned =
      ((Watchdog.restart_bot h now a b).launchAttempted && b) := by
  by_cases hc : Watchdog.max_restarts_per_hour ≤ (pruneHistory now h).length <;>
    simp [Watchdog.restart_bot, hc]

theorem Watchdog.wd_restart_bot_deferred (h : List Int) (now : Int)
    (a b : Bool) :
    (Watchdog.restart_bot h now a b).launchAttempted = false →
      (Watchdog.restart_bot h now a b).cooldownSecs = 300 := by
  by_cases hc : Watchdog.max_restarts_per_hour ≤ (pruneHistory now h).length <;>
    simp [Watchdog.restart_bot, hc]

theorem Keeper.kp_restart_bot_returned_eq (h : List Int) (now : Int)
    (a b : Bool) :
    (Keeper.restart_bot h now a b).returned = b ∧
    (Keeper.restart_bot h now a b).launchAttempted = true :=
  ⟨rfl, rfl⟩

/-- C3: in the main supervisory loop, an iteration with the failure count
strictly below the threshold (3 in bot_watchdog, 2 in keep_bot_running
counting the in-iteration increment) triggers no restart and leaves the
restart state untouched; at exactly the threshold exactly one restart is
triggered; and the counter is reset to 0 by the next passing health
check. -/
theorem consecutive_failure_threshold_behavior
    (cf : Nat) (history : List Int) (now : Int) (hasProc startOk : Bool) :
    (cf < 3 →
      Watchdog.runIter cf history now hasProc startOk =
        { consecutive_failures := cf, history := history,
          restartsTriggered := 0, backoffSecs := 0, cooldownSecs := 0,
          launchAttempted := false }) ∧
    (cf = 3 →
      (Watchdog.runIter cf history now hasProc startOk).restartsTriggered
        = 1) ∧
    Watchdog.health_check_step true true cf = 0 ∧
    (cf + 1 < 2 →
      (Keeper.runIter false cf history now hasProc startOk).restartsTriggered
          = 0 ∧
      (Keeper.runIter false cf history now hasProc startOk).history
          = history ∧
      (Keeper.runIter false cf history now hasProc startOk).consecutive_failures
          = cf + 1) ∧
    (cf + 1 = 2 →
      (Keeper.runIter false cf history now hasProc startOk).restartsTriggered
        = 1) ∧
    (Keeper.runIter true cf history now hasProc startOk).consecutive_failures
        = 0 := by
  refine ⟨?_, ?_, ?_, ?_, ?_, ?_⟩
  · intro hlt
    simp [Watchdog.runIter, Nat.not_le.mpr hlt]
  · intro h3
    subst h3
    cases hr : (Watchdog.restart_bot history now hasProc startOk).returned <;>
      simp [Watchdog.runIter, hr]
  · simp [Watchdog.health_check_step]
  · intro hlt
    have h0 : cf = 0 := by omega
    subst h0
    refine ⟨?_, ?_, ?_⟩ <;> simp [Keeper.runIter]
  · intro h2
    have h1 : cf = 1 := by omega
    subst h1
    cases hr : (Keeper.restart_bot history now hasProc startOk).returned <;>
      simp [Keeper.runIter, hr]
  · simp [Keeper.runIter]

/-- C3 witness: concrete instances of each hypothetical part of the
threshold-behavior theorem. -/
theorem consecutive_failure_threshold_behavior_witness :
    (Watchdog.runIter 2 [] 0 false true =
      { consecutive_failures := 2, history := [], restartsTriggered := 0,
        backoffSecs := 0, cooldownSecs := 0, launchAttempted := false }) ∧
    (Watchdog.runIter 3 [] 0 false true).restartsTriggered = 1 ∧
    ((Keeper.runIter false 0 [] 0 false true).restartsTriggered = 0 ∧
      (Keeper.runIter false 0 [] 0 false true).history = [] ∧
      (Keeper.runIter false 0 [] 0 false true).consecutive_failures = 1) ∧
    (Keeper.runIter false 1 [] 0 false true).restartsTriggered = 1 :=
  ⟨(consecutive_failure_threshold_behavior 2 [] 0 false true).1 (by decide),
   (consecutive_failure_threshold_behavior 3 [] 0 false true).2.1 rfl,
   (consecutive_failure_threshold_behavior 0 [] 0 false true).2.2.2.1
     (by decide),
   (consecutive_failure_threshold_behavior 1 [] 0 false true).2.2.2.2.1 rfl⟩

/-- C5: the backoff slept after a failed restart is exactly
`min(300, 30 * 2 ** min(consecutive_failures - 3, 5))` seconds in
bot_watchdog and `min(600, 60 * 2 ** min(consecutive_failures - 2, 4))`
seconds in keep_bot_running (there `consecutive_failures` is the local
counter after its in-iteration increment), in exact integer
arithmetic. -/
theorem failed_restart_backoff_formula
    (cf : Nat) (history : List Int) (now : Int) (hasProc : Bool) :
    (cf ≥ 3 →
      (Watchdog.runIter cf history now hasProc false).backoffSecs =
        min 300 (30 * 2 ^ (min (cf - 3) 5))) ∧
    (1 ≤ cf →
      (Keeper.runIter false cf history now hasProc false).backoffSecs =
        min 600 (60 * 2 ^ (min (cf + 1 - 2) 4))) := by
  constructor
  · intro h3
    have hr : (Watchdog.restart_bot history now hasProc false).returned
        = false := by
      rw [Watchdog.wd_restart_bot_returned_eq]
      simp
    simp [Watchdog.runIter, h3, hr]
  · intro h1
    have h2 : 2 ≤ cf + 1 := by omega
    have hr : (Keeper.restart_bot history now hasProc false).returned
        = false := (Keeper.kp_restart_bot_returned_eq history now hasProc false).1
    simp [Keeper.runIter, h2, hr]

/-- C5 witness: the backoff formula evaluated at concrete failure
streaks. -/
theorem failed_restart_backoff_formula_witness :
    (Watchdog.runIter 5 [] 0 false false).backoffSecs =
      min 300 (30 * 2 ^ (min (5 - 3) 5)) ∧
    (Keeper.runIter false 4 [] 0 false false).backoffSecs =
      min 600 (60 * 2 ^ (min (4 + 1 - 2) 4)) :=
  ⟨(failed_restart_backoff_formula 5 [] 0 false).1 (by decide),
   (failed_restart_backoff_formula 4 [] 0 false).2 (by decide)⟩

/-- C6 counterexample: in bot_watchdog, with the failure counter at the
threshold and 12 restarts recorded in the last hour, the restart is merely
deferred by the rate limit — no relaunch is attempted (and `start_bot`
would have succeeded) — yet the main loop still sleeps the exponential
backoff (30 s here) on top of the 300 s rate-limit cooldown. -/
theorem backoff_applied_on_rate_limited_deferral :
    (Watchdog.runIter 3 (List.replicate 12 0) 0 true true).backoffSecs
        = 30 ∧
    (Watchdog.runIter 3 (List.replicate 12 0) 0 true true).launchAttempted
        = false ∧
    (Watchdog.runIter 3 (List.replicate 12 0) 0 true true).cooldownSecs
        = 300 := by
  decide

/-- C6 amended: in keep_bot_running the exponential backoff is slept only
when the relaunch attempt itself failed; in bot_watchdog it is slept
exactly when `restart_bot` returned False, which happens both when the
attempted relaunch failed and when the restart was merely deferred by the
rate limit — and never when a restart succeeds. -/
theorem backoff_only_after_failed_restart_call
    (healthy : Bool) (cf : Nat) (history : List Int) (now : Int)
    (hasProc startOk : Bool) :
    ((Keeper.runIter healthy cf history now hasProc startOk).backoffSecs ≠ 0 →
      (Keeper.runIter healthy cf history now hasProc startOk).launchAttempted
          = true ∧
      startOk = false) ∧
    ((Watchdog.runIter cf history now hasProc startOk).backoffSecs ≠ 0 →
      ((Watchdog.runIter cf history now hasProc startOk).launchAttempted
            = true ∧ startOk = false) ∨
      ((Watchdog.runIter cf history now hasProc startOk).launchAttempted
            = false ∧
        (Watchdog.runIter cf history now hasProc startOk).cooldownSecs
            = 300)) ∧
    (startOk = true →
      (Keeper.runIter healthy cf history now hasProc startOk).backoffSecs
          = 0 ∧
      ((Watchdog.runIter cf history now hasProc startOk).launchAttempted
            = true →
        (Watchdog.runIter cf history now hasProc startOk).backoffSecs
            = 0)) := by
  cases startOk
  case false =>
    have hk := Keeper.kp_restart_bot_returned_eq history now hasProc false
    have hw := Watchdog.wd_restart_bot_returned_eq history now hasProc false
    have hrw : (Watchdog.restart_bot history now hasProc false).returned
        = false := by rw [hw]; simp
    refine ⟨?_, ?_, ?_⟩
    · intro hb
      refine ⟨?_, rfl⟩
      by_cases hh : healthy
      · simp [Keeper.runIter, hh] at hb
      · by_cases h2 : 2 ≤ cf + 1
        · simp [Keeper.runIter, hh, h2, hk.1, hk.2]
        · simp [Keeper.runIter, hh, h2] at hb
    · intro hb
      by_cases h3 : 3 ≤ cf
      · cases ha :
            (Watchdog.restart_bot history now hasProc false).launchAttempted
        · exact Or.inr ⟨by simp [Watchdog.runIter, h3, hrw, ha],
            by simpa [Watchdog.runIter, h3, hrw] using
              Watchdog.wd_restart_bot_deferred history now hasProc false ha⟩
        · exact Or.inl ⟨by simp [Watchdog.runIter, h3, hrw, ha], rfl⟩
      · simp [Watchdog.runIter, h3] at hb
    · intro hs
      simp at hs
  case true =>
    have hk := Keeper.kp_restart_bot_returned_eq history now hasProc true
    have hw := Watchdog.wd_restart_bot_returned_eq history now hasProc true
    refine ⟨?_, ?_, ?_⟩
    · intro hb
      exfalso
      by_cases hh : healthy
      · simp [Keeper.runIter, hh] at hb
      · by_cases h2 : 2 ≤ cf + 1
        · simp [Keeper.runIter, hh, h2, hk.1] at hb
        · simp [Keeper.runIter, hh, h2] at hb
    · intro hb
      by_cases h3 : 3 ≤ cf
      · cases ha :
            (Watchdog.restart_bot history now hasProc true).launchAttempted
        · have hrw : (Watchdog.restart_bot history now hasProc true).returned
              = false := by rw [hw, ha]; rfl
          exact Or.inr ⟨by simp [Watchdog.runIter, h3, hrw, ha],
            by simpa [Watchdog.runIter, h3, hrw] using
              Watchdog.wd_restart_bot_deferred history now hasProc true ha⟩
        · have hrw : (Watchdog.restart_bot history now hasProc true).returned
              = true := by rw [hw, ha]; rfl
          simp [Watchdog.runIter, h3, hrw] at hb
      · simp [Watchdog.runIter, h3] at hb
    · intro _
      constructor
      · by_cases hh : healthy
        · simp [Keeper.runIter, hh]
        · by_cases h2 : 2 ≤ cf + 1
          · simp [Keeper.runIter, hh, h2, hk.1]
          · simp [Keeper.runIter, hh, h2]
      · intro ha
        by_cases h3 : 3 ≤ cf
        · cases hla :
              (Watchdog.restart_bot history now hasProc true).launchAttempted
          · have hrw : (Watchdog.restart_bot history now hasProc true).returned
                = false := by rw [hw, hla]; rfl
            simp [Watchdog.runIter, h3, hrw, hla] at ha
          · have hrw : (Watchdog.restart_bot history now hasProc true).returned
                = true := by rw [hw, hla]; rfl
            simp [Watchdog.runIter, h3, hrw]
        · simp [Watchdog.runIter, h3]

/-- C6 witness: the amended backoff discipline at concrete inputs — a
keep_bot_running iteration whose relaunch failed (backoff 60 s), and a
successful bot_watchdog restart sleeping no backoff. -/
theorem backoff_only_after_failed_restart_call_witness :
    ((Keeper.runIter false 1 [] 0 false false).launchAttempted = true ∧
      false = false) ∧
    (Watchdog.runIter 3 [] 0 false true).backoffSecs = 0 :=
  ⟨(backoff_only_after_failed_restart_call false 1 [] 0 false false).1
      (by decide),
   ((backoff_only_after_failed_restart_call false 3 [] 0 false true).2.2
      rfl).2 (by decide)⟩

/-- C2 counterexample: a rate-limited `restart_bot` call in bot_watchdog
(12 restarts recorded in the last hour) sleeps the 300 s cooldown and
returns False, but does NOT clear `restart_history`: all 12 timestamps
survive the call and no restart is recorded afterwards. -/
theorem watchdog_cooldown_does_not_clear_history :
    (Watchdog.restart_bot (List.replicate 12 0) 0 false true).cooldownSecs
        = 300 ∧
    (Watchdog.restart_bot (List.replicate 12 0) 0 false true).history
        = List.replicate 12 0 ∧
    (Watchdog.restart_bot (List.replicate 12 0) 0 false true).returned
        = false ∧
    (Watchdog.restart_bot (List.replicate 12 0) 0 false true).trace
        = [Act.sleepCooldown 300] := by
  decide

/-- C2 amended: when the pruned restart count reaches the limit,
keep_bot_running's `restart_bot` sleeps its fixed 600 s cooldown and then
clears the history to empty before recording the next restart, so the
resulting history is exactly `[now]`; bot_watchdog's `restart_bot`
instead sleeps its fixed 300 s cooldown and returns False without
clearing or recording anything — there the window empties only as entries
age past one hour. -/
theorem rate_limit_cooldown_behavior
    (history : List Int) (now : Int) (hasProc startOk : Bool) :
    ((pruneHistory now history).length ≥ Keeper.max_restarts_per_hour →
      (Keeper.restart_bot history now hasProc startOk).cooldownSecs = 600 ∧
      (Keeper.restart_bot history now hasProc startOk).history = [now] ∧
      (Keeper.restart_bot history now hasProc startOk).trace =
        [Act.sleepCooldown 600, Act.record now] ++
          (if hasProc then [Act.terminateOld] else []) ++
          [Act.sleepRestart 60, Act.launch]) ∧
    ((pruneHistory now history).length ≥ Watchdog.max_restarts_per_hour →
      (Watchdog.restart_bot history now hasProc startOk).cooldownSecs
          = 300 ∧
      (Watchdog.restart_bot history now hasProc startOk).history
          = history ∧
      (Watchdog.restart_bot history now hasProc startOk).returned = false ∧
      (Watchdog.restart_bot history now hasProc startOk).trace =
        [Act.sleepCooldown 300]) := by
  constructor
  · intro hk
    refine ⟨?_, ?_, ?_⟩ <;>
      simp [Keeper.restart_bot, Keeper.restart_cooldown,
        ge_iff_le.mp hk]
  · intro hw
    refine ⟨?_, ?_, ?_, ?_⟩ <;>
      simp [Watchdog.restart_bot, ge_iff_le.mp hw]

/-- C2 witness: the amended cooldown behavior at concrete rate-limited
histories (10 recent restarts for keep_bot_running, 12 for
bot_watchdog). -/
theorem rate_limit_cooldown_behavior_witness :
    ((Keeper.restart_bot (List.replicate 10 5) 5 false true).cooldownSecs
          = 600 ∧
      (Keeper.restart_bot (List.replicate 10 5) 5 false true).history
          = [5] ∧
      (Keeper.restart_bot (List.replicate 10 5) 5 false true).trace =
        [Act.sleepCooldown 600, Act.record 5] ++
          (if false then [Act.terminateOld] else []) ++
          [Act.sleepRestart 60, Act.launch]) ∧
    ((Watchdog.restart_bot (List.replicate 12 5) 5 false true).cooldownSecs
          = 300 ∧
      (Watchdog.restart_bot (List.replicate 12 5) 5 false true).history
          = List.replicate 12 5 ∧
      (Watchdog.restart_bot (List.replicate 12 5) 5 false true).returned
          = false ∧
      (Watchdog.restart_bot (List.replicate 12 5) 5 false true).trace =
        [Act.sleepCooldown 300]) :=
  ⟨(rate_limit_cooldown_behavior (List.replicate 10 5) 5 false true).1
      (by decide),
   (rate_limit_cooldown_behavior (List.replicate 12 5) 5 false true).2
      (by decide)⟩

/-- Python `s.split(c)` for a one-character separator: split at every
occurrence, keeping empty pieces. -/
def splitOnChar (c : Char) : List Char → List (List Char)
  | [] => [[]]
  | x :: xs =>
    match splitOnChar c xs with
    | [] => [[]]
    | y :: ys => if x == c then [] :: y :: ys else (x :: y) :: ys

/-- Python `str.strip()`: whitespace removed from both ends. -/
def stripChars (l : List Char) : List Char :=
  ((l.dropWhile Char.isWhitespace).reverse.dropWhile Char.isWhitespace).reverse

/-- Auxiliary for the substring test: `pat` begins `l`. -/
def isPrefixL : List Char → List Char → Bool
  | [], _ => true
  | _ :: _, [] => false
  | a :: as, b :: bs => a == b && isPrefixL as bs

/-- Python substring test `pat in s`. -/
def containsSub (pat : List Char) : List Char → Bool
  | [] => isPrefixL pat []
  | b :: bs => isPrefixL pat (b :: bs) || containsSub pat bs

/-- Python tail slice `s[-n:]` (for positive `n`). -/
def tailChars (n : Nat) (l : List Char) : List Char := l.drop (l.length - n)

/-- Python tail slice `lst[-n:]` on a list (for positive `n`). -/
def lastN {α : Type} (n : Nat) (l : List α) : List α := l.drop (l.length - n)

/-- Numeric value of a decimal digit character. -/
def digitVal (c : Char) : Nat := c.toNat - 48

/-- CPython `_strptime` directive `%Y`: exactly four digits. -/
def parseY : List Char → Option (Nat × List Char)
  | a :: b :: c :: d :: rest =>
    if a.isDigit && b.isDigit && c.isDigit && d.isDigit then
      some (1000 * digitVal a + 100 * digitVal b + 10 * digitVal c +
        digitVal d, rest)
    else none
  | _ => none

/-- CPython `_strptime` directive `%m`: `1[0-2]|0[1-9]|[1-9]` (two-digit
alternatives first; the following literal of the format is a non-digit, so
ordered alternation needs no further backtracking). -/
def parseM : List Char → Option (Nat × List Char)
  | a :: b :: rest =>
    if a == '1' && b.isDigit && decide (digitVal b ≤ 2) then
      some (10 + digitVal b, rest)
    else if a == '0' && b.isDigit && decide (1 ≤ digitVal b) then
      some (digitVal b, rest)
    else if a.isDigit && decide (1 ≤ digitVal a) then
      some (digitVal a, b :: rest)
    else none
  | [a] =>
    if a.isDigit && decide (1 ≤ digitVal a) then some (digitVal a, [])
    else none
  | [] => none

/-- CPython `_strptime` directive `%d`: `3[01]|[12]\x5cd|0[1-9]|[1-9]`. -/
def parseD : List Char → Option (Nat × List Char)
  | a :: b :: rest =>
    if a == '3' && (b == '0' || b == '1') then some (30 + digitVal b, rest)
    else if (a == '1' || a == '2') && b.isDigit then
      some (10 * digitVal a + digitVal b, rest)
    else if a == '0' && b.isDigit && decide (1 ≤ digitVal b) then
      some (digitVal b, rest)
    else if a.isDigit && decide (1 ≤ digitVal a) then
      some (digitVal a, b :: rest)
    else none
  | [a] =>
    if a.isDigit && decide (1 ≤ digitVal a) then some (digitVal a, [])
    else none
  | [] => none

/-- CPython `_strptime` directive `%H`: `2[0-3]|[0-1]\x5cd|\x5cd`. -/
def parseH : List Char → Option (Nat × List Char)
  | a :: b :: rest =>
    if a == '2' && b.isDigit && decide (digitVal b ≤ 3) then
      some (20 + digitVal b, rest)
    else if (a == '0' || a == '1') && b.isDigit then
      some (10 * digitVal a + digitVal b, rest)
    else if a.isDigit then some (digitVal a, b :: rest)
    else none
  | [a] => if a.isDigit then some (digitVal a, []) else none
  | [] => none

/-- CPython `_strptime` directive `%M`: `[0-5]\x5cd|\x5cd`. -/
def parseMin : List Char → Option (Nat × List Char)
  | a :: b :: rest =>
    if a.isDigit && decide (digitVal a ≤ 5) && b.isDigit then
      some (10 * digitVal a + digitVal b, rest)
    else if a.isDigit then some (digitVal a, b :: rest)
    else none
  | [a] => if a.isDigit then some (digitVal a, []) else none
  | [] => none

/-- CPython `_strptime` directive `%S`: `6[0-1]|[0-5]\x5cd|\x5cd`. -/
def parseSec : List Char → Option (Nat × List Char)
  | a :: b :: rest =>
    if a == '6' && (b == '0' || b == '1') then some (60 + digitVal b, rest)
    else if a.isDigit && decide (digitVal a ≤ 5) && b.isDigit then
      some (10 * digitVal a + digitVal b, rest)
    else if a.isDigit then some (digitVal a, b :: rest)
    else none
  | [a] => if a.isDigit then some (digitVal a, []) else none
  | [] => none

/-- One literal character of the format string. -/
def expectChar (c : Char) : List Char → Option (List Char)
  | x :: rest => if x == c then some rest else none
  | [] => none

/-- `datetime.strptime(s, '%Y-%m-%d %H:%M:%S')` regex phase: the directive
patterns in sequence with the literal separators, a whole-string match
required (any unconverted remainder raises `ValueError`). -/
def strptimeYmdHms (s : List Char) :
    Option (Nat × Nat × Nat × Nat × Nat × Nat) := do
  let (y, s1) ← parseY s
  let s2 ← expectChar '-' s1
  let (mo, s3) ← parseM s2
  let s4 ← expectChar '-' s3
  let (d, s5) ← parseD s4
  let s6 ← expectChar ' ' s5
  let (h, s7) ← parseH s6
  let s8 ← expectChar ':' s7
  let (mi, s9) ← parseMin s8
  let s10 ← expectChar ':' s9
  let (sec, s11) ← parseSec s10
  if s11.isEmpty then some (y, mo, d, h, mi, sec) else none

/-- Gregorian leap-year rule used by `datetime`. -/
def isLeapYear (y : Nat) : Bool :=
  (y % 4 == 0 && y % 100 != 0) || y % 400 == 0

/-- Length of a month in the proleptic Gregorian calendar. -/
def daysInMonth (y m : Nat) : Nat :=
  if m == 2 then (if isLeapYear y then 29 else 28)
  else if m == 4 || m == 6 || m == 9 || m == 11 then 30
  else 31

/-- Days in the months of year `y` strictly before month `m`. -/
def daysBeforeMonth (y m : Nat) : Nat :=
  (List.range (m - 1)).foldl (fun acc i => acc + daysInMonth y (i + 1)) 0

/-- Leap years in `[1, y)`. -/
def leapYearsBefore (y : Nat) : Nat :=
  (y - 1) / 4 - (y - 1) / 100 + (y - 1) / 400

/-- Seconds from 0001-01-01 00:00:00 to the given proleptic-Gregorian
datetime: the linear timeline on which `datetime` differences are
computed. -/
def datetimeSecs (y mo d h mi s : Nat) : Nat :=
  86400 * (365 * (y - 1) + leapYearsBefore y + daysBeforeMonth y mo + (d - 1))
    + 3600 * h + 60 * mi + s

/-- The `datetime(...)` constructor validation `strptime` performs after
its regex match: year at least `MINYEAR`, day within the month, second at
most 59 (the directive regex alone admits leap seconds 60-61, which the
constructor rejects); month 1-12, hour 0-23 and minute 0-59 are already
guaranteed by the directive regexes but belong to the constructor's
checks. -/
def mkDatetime (y mo d h mi s : Nat) : Option Nat :=
  if decide (1 ≤ y) && decide (1 ≤ mo) && decide (mo ≤ 12) &&
      decide (1 ≤ d) && decide (d ≤ daysInMonth y mo) &&
      decide (h ≤ 23) && decide (mi ≤ 59) && decide (s ≤ 59) then
    some (datetimeSecs y mo d h mi s)
  else none

namespace Keeper

/-- The hard-coded `error_patterns` list of `check_bot_health`
(keep_bot_running.py lines 85-91). -/
def error_patterns : List (List Char) :=
  ["dispatch_failed".toList, "ClientConnectorError".toList,
   "Connection refused".toList, "Network is unreachable".toList,
   "SSL: CERTIFICATE_VERIFY_FAILED".toList]

/-- Timestamp extraction of `_is_recent_log_line`:
`line.split('[')[0].strip()`, then `.split(',')[0]`, then
`strptime('%Y-%m-%d %H:%M:%S')` plus the `datetime` constructor; `none`
when any step fails (the bare `except` makes the method return False). -/
def logLineTime (line : List Char) : Option Nat := do
  let ts := stripChars ((splitOnChar '[' line).headD [])
  let dp := (splitOnChar ',' ts).headD []
  let (y, mo, d, h, mi, s) ← strptimeYmdHms dp
  mkDatetime y mo d h mi s

/-- Shallow embedding of `BotKeeper._is_recent_log_line`
(keep_bot_running.py lines 106-114): True iff the line's leading
timestamp parses and `datetime.now() - log_time < timedelta(minutes=2)`. -/
def is_recent_log_line (line : List Char) (now : Int) : Bool :=
  match logLineTime line with
  | none => false
  | some t => decide (now - (t : Int) < 120)

/-- Shallow embedding of check 4 of `BotKeeper.check_bot_health`
(keep_bot_running.py lines 79-104) applied to the last-5000-character
slice `recent_logs`: an error is reported iff some pattern occurs in
`recent_logs` and, among the last 20 of its newline-split lines (scanned
in reverse), some line contains the pattern and `_is_recent_log_line`
accepts it. -/
def recent_error_detected (recent_logs : List Char) (now : Int) : Bool :=
  error_patterns.any fun pattern =>
    containsSub pattern recent_logs &&
    (let lines := splitOnChar '\n' recent_logs
     (lastN 20 lines).reverse.any fun line =>
       containsSub pattern line && is_recent_log_line line now)

/-- Shallow embedding of `BotKeeper.check_bot_health` (keep_bot_running.py
lines 51-104).  `procRunning` is check 1 (`bot_process` set and `poll()`
None), `pidExists` check 2 (`psutil.Process(pid)` succeeds), `logExists`
whether `self.bot_log.exists()`, `lastModified` the log's mtime for the
5-minute staleness check 3, and `fullLog` the file content, of which
check 4 scans the last 5000 characters. -/
def check_bot_health (procRunning pidExists logExists : Bool)
    (lastModified : Int) (fullLog : List Char) (now : Int) : Bool :=
  if !procRunning then false
  else if !pidExists then false
  else if logExists && decide (now - lastModified > 300) then false
  else if logExists && recent_error_detected (tailChars 5000 fullLog) now then
    false
  else true

end Keeper

namespace Watchdog

/-- Shallow embedding of `SlackBotWatchdog.check_slack_connection`
(bot_watchdog.py lines 81-98): when the log file exists and its mtime is
more than 5 minutes old the check fails; otherwise — including when the
file is missing — it passes. -/
def check_slack_connection (logExists : Bool) (lastModified now : Int) :
    Bool :=
  if logExists then
    if now - lastModified > 300 then false else true
  else true

end Watchdog

/-- A concrete, correctly timestamped error line used to exercise the
20-line scan window of `check_bot_health`. -/
def c4ErrLine : List Char :=
  "2025-10-12 10:00:00,123 [ERROR] Connection refused".toList

/-- A log whose last 5000 characters contain `c4ErrLine` followed by 20
further one-character lines, so the error line is inside the scanned tail
but not among the last 20 lines. -/
def c4Log : List Char :=
  c4ErrLine ++
    "\nx\nx\nx\nx\nx\nx\nx\nx\nx\nx\nx\nx\nx\nx\nx\nx\nx\nx\nx\nx".toList

/-- A wall-clock instant 30 seconds after `c4ErrLine`'s timestamp, well
inside the 2-minute recency window. -/
def c4Now : Int := 63895860030

/-- C4 counterexample: a parseable `Connection refused` error line lying
inside the last 5000 characters of the log and strictly within the
2-minute window is nevertheless NOT reported, because 20 later lines push
it out of the 20-line scan of `check_bot_health`; the whole health check
passes. -/
theorem recent_error_missed_beyond_last_20_lines :
    Keeper.recent_error_detected (tailChars 5000 c4Log) c4Now = false ∧
    containsSub ("Connection refused".toList) (tailChars 5000 c4Log)
        = true ∧
    Keeper.is_recent_log_line c4ErrLine c4Now = true ∧
    Keeper.check_bot_health true true true c4Now c4Log c4Now = true := by
  decide

/-- C4 amended: the scan reports a recent error exactly when one of the
fixed error substrings occurs in the last 5000 characters of the log AND
occurs on one of the last 20 lines of that tail whose leading timestamp
parses and lies strictly within the 2-minute window of now; a line whose
timestamp is malformed or unparsable never counts, a line aged exactly
120 seconds does not count (exclusive boundary), and one aged 119 seconds
does. -/
theorem recent_error_scan_characterization
    (recent_logs : List Char) (now : Int) :
    (Keeper.recent_error_detected recent_logs now = true ↔
      ∃ pattern ∈ Keeper.error_patterns,
        containsSub pattern recent_logs = true ∧
        ∃ line ∈ lastN 20 (splitOnChar '\n' recent_logs),
          containsSub pattern line = true ∧
          Keeper.is_recent_log_line line now = true) ∧
    (∀ line, Keeper.logLineTime line = none →
      Keeper.is_recent_log_line line now = false) ∧
    (∀ line t, Keeper.logLineTime line = some t →
      (Keeper.is_recent_log_line line now = true ↔ now - (t : Int) < 120)) ∧
    (∀ line t, Keeper.logLineTime line = some t →
      Keeper.is_recent_log_line line ((t : Int) + 120) = false ∧
      Keeper.is_recent_log_line line ((t : Int) + 119) = true) := by
  refine ⟨?_, ?_, ?_, ?_⟩
  · simp [Keeper.recent_error_detected, List.any_eq_true, Bool.and_eq_true,
      List.mem_reverse]
  · intro line h
    simp [Keeper.is_recent_log_line, h]
  · intro line t h
    simp [Keeper.is_recent_log_line, h]
  · intro line t h
    constructor <;> simp [Keeper.is_recent_log_line, h]

/-- C4 witness: the amended characterization at concrete inputs — an
unparsable line never counts, and the boundary behavior at the error
line's own timestamp. -/
theorem recent_error_scan_characterization_witness :
    Keeper.is_recent_log_line ("garbage".toList) 0 = false ∧
    (Keeper.is_recent_log_line c4ErrLine c4Now = true ↔
      c4Now - ((63895860000 : Nat) : Int) < 120) ∧
    (Keeper.is_recent_log_line c4ErrLine (((63895860000 : Nat) : Int) + 120)
        = false ∧
      Keeper.is_recent_log_line c4ErrLine (((63895860000 : Nat) : Int) + 119)
        = true) :=
  ⟨(recent_error_scan_characterization [] 0).2.1 ("garbage".toList)
      (by decide),
   (recent_error_scan_characterization [] c4Now).2.2.1 c4ErrLine 63895860000
      (by decide),
   (recent_error_scan_characterization [] 0).2.2.2 c4ErrLine 63895860000
      (by decide)⟩

/-- C8: a missing worker log file never fails the freshness signal:
`check_slack_connection` returns True outright, and `check_bot_health`
(with the two process checks passing) skips both the staleness check and
the error-pattern scan and returns True. -/
theorem missing_log_file_tolerated
    (lastModified : Int) (fullLog : List Char) (now : Int) :
    Watchdog.check_slack_connection false lastModified now = true ∧
    Keeper.check_bot_health true true false lastModified fullLog now
        = true := by
  constructor
  · rfl
  · simp [Keeper.check_bot_health]

/-- Signals delivered to the worker's process group via
`os.killpg(os.getpgid(pid), ...)`. -/
inductive Sig : Type
  | sigterm
  | sigkill
deriving DecidableEq, Repr

/-- Outcome of the stop sequence shared by `SlackBotWatchdog.restart_bot`
and `.shutdown` and by `BotKeeper.restart_bot` and `.shutdown`: the
ordered group-signal attempts, the bound passed to `wait`, and whether any
`ProcessLookupError` propagated out of the sequence. -/
structure TerminateOutcome where
  groupSignals : List Sig
  waitBound : Nat
  raised : Bool
deriving DecidableEq, Repr

/-- Shallow embedding of the worker-termination sequence
(bot_watchdog.py lines 176-185 and 272-282, keep_bot_running.py lines
200-210 and 306-316): `os.killpg(..., SIGTERM)` then `wait(timeout)`
(timeout 10, or 15 in the keeper's shutdown); `subprocess.TimeoutExpired`
or `ProcessLookupError` is answered by a single
`os.killpg(..., SIGKILL)`, whose own `ProcessLookupError` is passed.
`existsAtTerm` is whether the OS still knows the process when SIGTERM is
attempted, `exitsWithinTimeout` whether it exits inside the bounded
wait. -/
def terminateWorker (timeout : Nat) (existsAtTerm exitsWithinTimeout : Bool) :
    TerminateOutcome :=
  if existsAtTerm then
    if exitsWithinTimeout then
      { groupSignals := [Sig.sigterm], waitBound := timeout, raised := false }
    else
      { groupSignals := [Sig.sigterm, Sig.sigkill], waitBound := timeout,
        raised := false }
  else
    { groupSignals := [Sig.sigterm, Sig.sigkill], waitBound := 0,
      raised := false }

/-- C7: every worker termination first attempts SIGTERM on the process
group and waits at most the fixed bound; a process still alive after the
timeout receives exactly one SIGKILL of the group; no more than one
SIGKILL is ever attempted; and a "no such process" error at any kill step
is swallowed rather than propagated. -/
theorem terminate_sigterm_bounded_wait_single_sigkill
    (timeout : Nat) (existsAtTerm exitsWithinTimeout : Bool) :
    (terminateWorker timeout existsAtTerm exitsWithinTimeout).groupSignals.head?
        = some Sig.sigterm ∧
    (terminateWorker timeout existsAtTerm exitsWithinTimeout).waitBound
        ≤ timeout ∧
    (terminateWorker timeout existsAtTerm
        exitsWithinTimeout).groupSignals.count Sig.sigkill ≤ 1 ∧
    (existsAtTerm = true → exitsWithinTimeout = false →
      (terminateWorker timeout existsAtTerm
          exitsWithinTimeout).groupSignals = [Sig.sigterm, Sig.sigkill]) ∧
    (terminateWorker timeout existsAtTerm exitsWithinTimeout).raised
        = false := by
  cases existsAtTerm <;> cases exitsWithinTimeout <;>
    simp [terminateWorker, List.count_cons, List.count_nil]

/-- C7 witness: the termination sequence of a worker that ignores SIGTERM
for the full 10-second wait. -/
theorem terminate_sigterm_bounded_wait_single_sigkill_witness :
    (terminateWorker 10 true false).groupSignals
        = [Sig.sigterm, Sig.sigkill] ∧
    (terminateWorker 10 true false).raised = false :=
  ⟨(terminate_sigterm_bounded_wait_single_sigkill 10 true false).2.2.2.1
      rfl rfl,
   (terminate_sigterm_bounded_wait_single_sigkill 10 true false).2.2.2.2⟩

/-- C10: a `restart_bot` call not blocked by the rate limit appends the
current timestamp to `restart_history` before the old process is stopped
and before the relaunch outcome is known: the trace records the append
first (after at most a cooldown sleep in keep_bot_running), and the
resulting history is identical whether `start_bot` succeeds or fails, so
a failed relaunch consumes one unit of the hourly budget exactly as a
successful one does. -/
theorem restart_recorded_before_terminate_and_outcome
    (history : List Int) (now : Int) (hasProc : Bool) :
    ((pruneHistory now history).length < Watchdog.max_restarts_per_hour →
      ∀ startOk,
        (Watchdog.restart_bot history now hasProc startOk).trace =
          [Act.record now] ++
            (if hasProc then [Act.terminateOld] else []) ++
            [Act.sleepRestart 30, Act.launch] ∧
        (Watchdog.restart_bot history now hasProc startOk).history =
          pruneHistory now history ++ [now]) ∧
    (∀ startOk, ∃ pre,
      (Keeper.restart_bot history now hasProc startOk).trace =
        pre ++ [Act.record now] ++
          (if hasProc then [Act.terminateOld] else []) ++
          [Act.sleepRestart 60, Act.launch] ∧
      (∀ a ∈ pre, ∃ s, a = Act.sleepCooldown s) ∧
      (Keeper.restart_bot history now hasProc startOk).history.getLast?
          = some now) ∧
    (Watchdog.restart_bot history now hasProc true).history =
      (Watchdog.restart_bot history now hasProc false).history ∧
    (Keeper.restart_bot history now hasProc true).history =
      (Keeper.restart_bot history now hasProc false).history := by
  have hsplit : pruneHistory now (history ++ [now]) =
      pruneHistory now history ++ [now] := by
    rw [pruneHistory_append, pruneHistory_singleton_now]
  refine ⟨?_, ?_, ?_, ?_⟩
  · intro hlt startOk
    have hc : ¬ Watchdog.max_restarts_per_hour ≤
        (pruneHistory now history).length := Nat.not_le.mpr hlt
    constructor
    · simp [Watchdog.restart_bot, Watchdog.restart_cooldown, hc]
    · simp [Watchdog.restart_bot, hc, hsplit]
  · intro startOk
    by_cases hc : Keeper.max_restarts_per_hour ≤
        (pruneHistory now history).length
    · refine ⟨[Act.sleepCooldown 600], ?_, ?_, ?_⟩
      · simp [Keeper.restart_bot, Keeper.restart_cooldown, hc]
      · intro a ha
        simp at ha
        exact ⟨600, ha⟩
      · simp [Keeper.restart_bot, hc]
    · refine ⟨[], ?_, ?_, ?_⟩
      · simp [Keeper.restart_bot, Keeper.restart_cooldown, hc]
      · intro a ha
        simp at ha
      · simp [Keeper.restart_bot, hc]
  · by_cases hc : Watchdog.max_restarts_per_hour ≤
        (pruneHistory now history).length <;>
      simp [Watchdog.restart_bot, hc]
  · rfl

/-- C10 witness: a rate-limited-free watchdog call at a concrete state,
with the budget consumed identically for a failing and a succeeding
relaunch. -/
theorem restart_recorded_before_terminate_and_outcome_witness :
    ((Watchdog.restart_bot [5] 6 true false).trace =
      [Act.record 6] ++ (if true then [Act.terminateOld] else []) ++
        [Act.sleepRestart 30, Act.launch] ∧
     (Watchdog.restart_bot [5] 6 true false).history =
      pruneHistory 6 [5] ++ [6]) :=
  (restart_recorded_before_terminate_and_outcome [5] 6 true).1
    (by decide) false

/-- Primitive shared-memory operations on `self.consecutive_failures` as
CPython executes them: the `+= 1` of `health_check_loop` is a load of the
attribute into a temporary followed by a store of temporary + 1 (the GIL
may switch threads between the two bytecodes), and the reset in
`start_bot` — reached from the main loop through `restart_bot` — is a
single store of 0.  bot_watchdog.py takes no lock around either. -/
inductive CounterOp : Type
  | load
  | storeIncr
  | storeZero
deriving DecidableEq, Repr

/-- The shared counter together with the incrementing thread's
temporary. -/
structure CounterState where
  consecutive_failures : Nat
  tmp : Nat
deriving DecidableEq, Repr

/-- Effect of one primitive operation. -/
def execOp (s : CounterState) : CounterOp → CounterState
  | CounterOp.load => { s with tmp := s.consecutive_failures }
  | CounterOp.storeIncr => { s with consecutive_failures := s.tmp + 1 }
  | CounterOp.storeZero => { s with consecutive_failures := 0 }

/-- Run a schedule of primitive operations. -/
def runOps (s : CounterState) (ops : List CounterOp) : CounterState :=
  ops.foldl execOp s

/-- The unsynchronized `self.consecutive_failures += 1` of
`health_check_loop` (bot_watchdog.py lines 205 and 208). -/
def healthIncrOps : List CounterOp := [CounterOp.load, CounterOp.storeIncr]

/-- The unsynchronized `self.consecutive_failures = 0` of `start_bot`
(bot_watchdog.py line 127), executed on the main thread during a
restart. -/
def mainResetOps : List CounterOp := [CounterOp.storeZero]

/-- `zs` is an interleaving of `xs` and `ys`: every step of `zs` is the
next pending step of one of the two threads. -/
def isMergeOf : List CounterOp → List CounterOp → List CounterOp → Bool
  | [], [], [] => true
  | [], _, _ => false
  | z :: zs, xs, ys =>
    (match xs with
     | x :: xs1 => x == z && isMergeOf zs xs1 ys
     | [] => false) ||
    (match ys with
     | y :: ys1 => y == z && isMergeOf zs xs ys1
     | [] => false)

/-- C9 counterexample: `consecutive_failures` is a plain unsynchronized
attribute in bot_watchdog.  Scheduling the health thread's load before
the main thread's reset and its store after it is a valid interleaving
that loses the reset: from counter 5 it ends at 6, while the two serial
orders end at 0 and 1.  Moreover the counter is not mutated only by the
health-check activity: a successful restart in the main loop writes 0 to
it via `start_bot`. -/
theorem consecutive_failures_lost_update_interleaving :
    isMergeOf [CounterOp.load, CounterOp.storeZero, CounterOp.storeIncr]
      healthIncrOps mainResetOps = true ∧
    (runOps ⟨5, 0⟩
      [CounterOp.load, CounterOp.storeZero,
        CounterOp.storeIncr]).consecutive_failures = 6 ∧
    (runOps ⟨5, 0⟩ (healthIncrOps ++ mainResetOps)).consecutive_failures
        = 0 ∧
    (runOps ⟨5, 0⟩ (mainResetOps ++ healthIncrOps)).consecutive_failures
        = 1 ∧
    (Watchdog.runIter 3 [] 0 false true).consecutive_failures = 0 ∧
    (Watchdog.runIter 3 [] 0 false true).restartsTriggered = 1 := by
  decide

/-- C9 amended: in bot_watchdog `consecutive_failures` is a plain
unsynchronized instance attribute with no atomic or mutex guard: the
health-check thread increments it with a non-atomic load/store pair, and
the main loop also writes it (the reset to 0 inside `start_bot` on a
successful restart).  For every initial value, the interleaving that
loads before the main-loop reset and stores after it is a valid schedule
of the two threads and leaves the counter one above its initial value,
losing the reset that either serial order would retain as 0 or 1.  (In
keep_bot_running the counter is a local variable of `run()` touched by a
single thread, so no interleaving exists there.) -/
theorem consecutive_failures_unsynchronized_race (n : Nat) :
    isMergeOf [CounterOp.load, CounterOp.storeZero, CounterOp.storeIncr]
      healthIncrOps mainResetOps = true ∧
    (runOps ⟨n, 0⟩
      [CounterOp.load, CounterOp.storeZero,
        CounterOp.storeIncr]).consecutive_failures = n + 1 ∧
    (runOps ⟨n, 0⟩ (healthIncrOps ++ mainResetOps)).consecutive_failures
        = 0 ∧
    (runOps ⟨n, 0⟩ (mainResetOps ++ healthIncrOps)).consecutive_failures
        = 1 ∧
    (∀ (now : Int) (hasProc : Bool),
      (Watchdog.runIter 3 [] now hasProc true).consecutive_failures = 0) := by
  refine ⟨by decide, rfl, rfl, rfl, ?_⟩
  intro now hasProc
  have hc : ¬ Watchdog.max_restarts_per_hour ≤
      (pruneHistory now ([] : List Int)).length := by
    simp [pruneHistory, Watchdog.max_restarts_per_hour]
  simp [Watchdog.runIter, Watchdog.restart_bot, hc]
